import Mathlib

/-!
Verification development for the p5 sketch runtime (src/src/core/core.js) and
the 2d primitives module (src/src/shape/2d_primitives.js).

The JavaScript source is shallowly embedded: instance/window property tables
become finite string-keyed stores, the timer-driven control flow becomes
explicit state-transition functions, and the event loop becomes explicit
traces of transition events.  Machine numbers are modelled as rationals; the
one non-finite value that can arise (division of 1000 by a zero elapsed time
in p5.prototype._draw) is modelled by an Option, with none standing for the
non-finite JavaScript result.
-/

namespace P5

/-- A JavaScript value as far as the runtime core manipulates one:
numbers (modelled as rationals), strings, booleans and null. -/
inductive Val
  | num (q : ℚ)
  | str (s : String)
  | boolean (b : Bool)
  | null
deriving DecidableEq

/-- A property table (a JavaScript object viewed as a map from property
names to values); absent keys read as none (undefined). -/
abbrev Store := String → Option Val

def Store.empty : Store := fun _ => none

/-- Property assignment obj[k] = v. -/
def Store.set (s : Store) (k : String) (v : Val) : Store :=
  fun k2 => if k2 = k then some v else s k2

theorem Store.get_set_same (s : Store) (k : String) (v : Val) :
    s.set k v k = some v := by
  simp [Store.set]

theorem Store.get_set_ne (s : Store) (k k2 : String) (v : Val) (h : k2 ≠ k) :
    s.set k v k2 = s k2 := by
  simp [Store.set, h]

/-! ## Property Mirror (p5.prototype._setProperty and the constructor) -/

/-- The part of a p5 instance the Property Mirror acts on: the mode flag
this._isGlobal, the instance property table, and the ambient window
property table. -/
structure MState where
  isGlobal : Bool
  inst : Store
  window : Store

/-- p5.prototype._setProperty:
this[prop] = value; if (this._isGlobal) { window[prop] = value; } -/
def setProperty (m : MState) (prop : String) (value : Val) : MState :=
  let m1 : MState := { m with inst := m.inst.set prop value }
  if m1.isGlobal then { m1 with window := m1.window.set prop value } else m1

/-- The scalar own data properties assigned by the p5 constructor, in source
order, with their initial values.  Host-dependent values (displayWidth and
displayHeight from screen, _startTime from the clock), the mode flag
_isGlobal (tracked as the isGlobal field of MState), and composite values
(settings, matrices, pWriters, _elements, styles, _contourVertices,
curElement, shapeKind) are not listed; none of them is read by the
properties proved here. -/
def constructorProps : List (String × Val) :=
  [ ("frameCount", .num 0)
  , ("focused", .boolean true)
  , ("shapeInited", .boolean false)
  , ("mouseX", .num 0)
  , ("mouseY", .num 0)
  , ("pmouseX", .num 0)
  , ("pmouseY", .num 0)
  , ("winMouseX", .num 0)
  , ("winMouseY", .num 0)
  , ("pwinMouseX", .num 0)
  , ("pwinMouseY", .num 0)
  , ("mouseButton", .num 0)
  , ("key", .str "")
  , ("keyCode", .num 0)
  , ("keyDown", .boolean false)
  , ("touchX", .num 0)
  , ("touchY", .num 0)
  , ("_preloadCount", .num 0)
  , ("_frameRate", .num 0)
  , ("_lastFrameTime", .num 0)
  , ("_targetFrameRate", .num 60)
  , ("_textLeading", .num 15)
  , ("_textFont", .str "sans-serif")
  , ("_textSize", .num 12)
  , ("_textStyle", .str "normal")
  , ("_bezierDetail", .num 20)
  , ("_curveDetail", .num 20)
  , ("_contourInited", .boolean false)
  ]

/-- The instance property table right after the constructor body has run. -/
def initInst : Store :=
  List.foldl (fun s p => s.set p.1 p.2) Store.empty constructorProps

/-- The global-mode projection loop of the constructor:
for (var prop in this) if (this.hasOwnProperty(prop)) window[prop] = this[prop].
(The loop over p5.prototype methods and the loop over constants are not
modelled; no claim reads them.) -/
def projectOwnProps (w : Store) : Store :=
  List.foldl (fun s p => s.set p.1 p.2) w constructorProps

/-- The mode decision of the constructor: if no sketch closure is supplied
(!sketch), _isGlobal is set to true and the own properties are projected
onto the window; otherwise the instance stays in instance mode and the
window is untouched by the constructor. -/
def construct (sketchSupplied : Bool) (w : Store) : MState :=
  if sketchSupplied then
    { isGlobal := false, inst := initInst, window := w }
  else
    { isGlobal := true, inst := initInst, window := projectOwnProps w }

/-- C7: _setProperty sets the instance attribute of the given name to the
given value; it writes the identically named window attribute exactly when
the instance is in global mode, and leaves the window untouched in instance
mode; a global-mode construction makes the global frameCount exist (with
value 0) immediately after construction, and a subsequent _setProperty of
frameCount updates the global frameCount to the new value. -/
theorem setProperty_mirror (m : MState) (p : String) (v : Val) (w : Store) (v2 : Val) :
    (setProperty m p v).inst p = some v
  ∧ (setProperty m p v).window = (if m.isGlobal then m.window.set p v else m.window)
  ∧ (setProperty m p v).isGlobal = m.isGlobal
  ∧ (construct false w).window "frameCount" = some (.num 0)
  ∧ (setProperty (construct false w) "frameCount" v2).window "frameCount" = some v2 := by
  refine ⟨?_, ?_, ?_, ?_, ?_⟩
  · cases h : m.isGlobal <;> simp [setProperty, h, Store.get_set_same]
  · cases h : m.isGlobal <;> simp [setProperty, h]
  · cases h : m.isGlobal <;> simp [setProperty, h]
  · simp [construct, projectOwnProps, constructorProps, Store.set, List.foldl]
  · simp [construct, setProperty, Store.get_set_same]

/-! ## Preload Barrier (p5.prototype._start preload branch, p5.prototype._preload)

The chosen context object of the source (window in global mode, the instance
in instance mode) is modelled as a single property table: in both modes each
read of context._preloadCount and each write through context._setProperty
target the same table, and the constructor (or the global-mode projection of
the constructor) has initialized _preloadCount to 0 on it.  pending models
the set of registered, not-yet-fired asynchronous completion callbacks
(event-queue bookkeeping, not a source variable); setupRuns counts the
invocations of the _setup/_runFrames/_draw sequence; wrapped records whether
the instrumented load wrappers are currently installed. -/

structure BState where
  store : Store
  pending : ℕ
  setupRuns : ℕ
  wrapped : Bool

/-- Reading a numeric property, as the source reads context._preloadCount.
Every key read in the modelled scenarios is initialized numerically by the
constructor, so the 0 default for a missing or non-numeric key never fires. -/
def numProp (s : Store) (k : String) : ℚ :=
  match s k with
  | some (.num q) => q
  | _ => 0

/-- Observable steps of the preload phase. -/
inductive PEvent
  | wrapInstall
  | loadIssued
  | wrappersRestored
  | completionFired
  | setupRun
deriving DecidableEq

/-- p5.prototype._preload, the synchronous part of the wrapped load: it runs
context._setProperty('preload-count', context._preloadCount + 1) — note the
written key 'preload-count' differs from the read key '_preloadCount' — and
then starts the load, registering its completion callback. -/
def preloadWrapped (b : BState) : BState :=
  { b with
    store := b.store.set "preload-count" (.num (numProp b.store "_preloadCount" + 1))
    pending := b.pending + 1 }

/-- The completion callback that p5.prototype._preload passes to the
underlying load: context._setProperty('preload-count', context._preloadCount - 1);
if (context._preloadCount === 0) { context._setup(); context._runFrames();
context._draw(); }.  Returns the events it emits. -/
def completionStep (b : BState) : List PEvent × BState :=
  let b1 : BState :=
    { b with
      store := b.store.set "preload-count" (.num (numProp b.store "_preloadCount" - 1))
      pending := b.pending - 1 }
  if numProp b1.store "_preloadCount" = 0 then
    ([.completionFired, .setupRun], { b1 with setupRuns := b1.setupRuns + 1 })
  else
    ([.completionFired], b1)

/-- The user preload callback issuing n wrapped loads, one after the other. -/
def issueLoads : ℕ → BState → List PEvent × BState
  | 0, b => ([], b)
  | k + 1, b =>
    let r := issueLoads k (preloadWrapped b)
    (.loadIssued :: r.1, r.2)

/-- The preload branch of p5.prototype._start: install the instrumented
wrappers over loadJSON/loadStrings/loadXML/loadImage, call userPreload()
(which issues n loads synchronously), then immediately restore the four
un-instrumented prototype originals.  No check of the counter happens after
userPreload() returns: the branch ends with the restoration. -/
def startPreloadPhase (n : ℕ) (b : BState) : List PEvent × BState :=
  let b0 : BState := { b with wrapped := true }
  let r := issueLoads n b0
  (.wrapInstall :: r.1 ++ [.wrappersRestored], { r.2 with wrapped := false })

/-- The context property table after construction, restricted to the key the
barrier reads: this._preloadCount = 0. -/
def initB : BState :=
  { store := Store.empty.set "_preloadCount" (.num 0)
  , pending := 0, setupRuns := 0, wrapped := false }

/-- One turn of the event loop after _start has returned: the only queued
work that can still run the setup sequence is a registered completion
callback; if none is pending, nothing changes. -/
def stepAsync (b : BState) : BState :=
  if b.pending = 0 then b else (completionStep b).2

/-- Iterated event-loop turns. -/
def stepsAsync : ℕ → BState → BState
  | 0, b => b
  | k + 1, b => stepsAsync k (stepAsync b)

/-- All n completion callbacks firing, in order, with their emitted events. -/
def fireAll : ℕ → BState → List PEvent × BState
  | 0, b => ([], b)
  | k + 1, b =>
    let r1 := completionStep b
    let r2 := fireAll k r1.2
    (r1.1 ++ r2.1, r2.2)

/-- A full run from construction: the synchronous preload branch of _start
with n issued loads, followed by the n asynchronous completions. -/
def runScenario (n : ℕ) : List PEvent × BState :=
  let r1 := startPreloadPhase n initB
  let r2 := fireAll n r1.2
  (r1.1 ++ r2.1, r2.2)

/-- C1 (failing input): a preload callback that issues two asynchronous
loads.  Because _preload writes the key 'preload-count' but reads the key
'_preloadCount' (which stays 0 forever), the zero test in the completion
callback passes on every completion: the setup sequence has already run
once when the first completion fires — while the second request is still
pending — and runs a second time after the second completion, instead of
running exactly once after both. -/
theorem preload_barrier_bug :
    ((completionStep (startPreloadPhase 2 initB).2).2.setupRuns = 1
      ∧ (completionStep (startPreloadPhase 2 initB).2).2.pending = 1)
  ∧ (runScenario 2).2.setupRuns = 2 := by
  refine ⟨⟨?_, ?_⟩, ?_⟩ <;> rfl

theorem stepAsync_of_pending_zero (b : BState) (hb : b.pending = 0) :
    stepAsync b = b := by
  simp [stepAsync, hb]

theorem stepsAsync_of_pending_zero (k : ℕ) (b : BState) (hb : b.pending = 0) :
    stepsAsync k b = b := by
  induction k with
  | zero => rfl
  | succ n ih => simp [stepsAsync, stepAsync_of_pending_zero b hb, ih]

/-- C2 (failing input): a preload callback that issues zero loads.  The
preload branch of _start never checks the counter after userPreload()
returns, and with no pending completion callback no event-loop turn can ever
run the setup sequence: setupRuns stays 0 forever (deadlock). -/
theorem zero_request_preload_deadlock (k : ℕ) :
    (stepsAsync k (startPreloadPhase 0 initB).2).setupRuns = 0
  ∧ (stepsAsync k (startPreloadPhase 0 initB).2).pending = 0 := by
  have h : (startPreloadPhase 0 initB).2.pending = 0 := rfl
  rw [stepsAsync_of_pending_zero k _ h]
  exact ⟨rfl, rfl⟩

/-- Modelled from the spec: the restored, un-instrumented asset-loading
operation (p5.prototype.loadJSON / loadStrings / loadXML / loadImage, an
external collaborator whose body is outside src): it starts the fetch but
does not touch the preload counter, the pending-completion queue or the
lifecycle, so on the barrier state it is the identity. -/
def originalLoad (b : BState) : BState := b

/-- The events emitted by k consecutive completion callbacks when the read
counter key _preloadCount holds 0 (which, by the naming mismatch, it always
does): every completion immediately runs the setup sequence. -/
def asyncEvents : ℕ → List PEvent
  | 0 => []
  | k + 1 => .completionFired :: .setupRun :: asyncEvents k

theorem preloadWrapped_count (b : BState) :
    (preloadWrapped b).store "_preloadCount" = b.store "_preloadCount" := by
  simp [preloadWrapped, Store.set]

theorem issueLoads_events (n : ℕ) :
    ∀ b : BState, (issueLoads n b).1 = List.replicate n .loadIssued := by
  induction n with
  | zero => intro b; rfl
  | succ k ih => intro b; simp [issueLoads, ih, List.replicate_succ]

theorem issueLoads_count (n : ℕ) :
    ∀ b : BState, (issueLoads n b).2.store "_preloadCount" = b.store "_preloadCount" := by
  induction n with
  | zero => intro b; rfl
  | succ k ih => intro b; simp [issueLoads, ih, preloadWrapped_count]

theorem startPreloadPhase_events (n : ℕ) (b : BState) :
    (startPreloadPhase n b).1
      = .wrapInstall :: (List.replicate n .loadIssued ++ [.wrappersRestored]) := by
  simp [startPreloadPhase, issueLoads_events]

theorem startPreloadPhase_count (n : ℕ) (b : BState) :
    (startPreloadPhase n b).2.store "_preloadCount" = b.store "_preloadCount" := by
  simp [startPreloadPhase, issueLoads_count]

theorem completionStep_of_count_zero (b : BState)
    (hb : b.store "_preloadCount" = some (.num 0)) :
    (completionStep b).1 = [.completionFired, .setupRun]
  ∧ (completionStep b).2.store "_preloadCount" = some (.num 0) := by
  have hne : ("_preloadCount" : String) ≠ "preload-count" := by decide
  have h1 : numProp
      (b.store.set "preload-count" (.num (numProp b.store "_preloadCount" - 1)))
      "_preloadCount" = 0 := by
    simp [numProp, Store.set, hne, hb]
  constructor
  · simp [completionStep, h1]
  · simp [completionStep, h1, Store.set, hne, hb]

theorem fireAll_events (k : ℕ) :
    ∀ b : BState, b.store "_preloadCount" = some (.num 0) →
      (fireAll k b).1 = asyncEvents k := by
  induction k with
  | zero => intro b _; rfl
  | succ n ih =>
    intro b hb
    have h := completionStep_of_count_zero b hb
    simp [fireAll, asyncEvents, h.1, ih _ h.2]

theorem wrappersRestored_not_mem_asyncEvents (n : ℕ) :
    PEvent.wrappersRestored ∉ asyncEvents n := by
  induction n with
  | zero => simp [asyncEvents]
  | succ k ih => simp [asyncEvents, ih]

/-- C9 (counterexample to the claim as stated): with one issued load, the
full trace restores the wrappers at index 2 and runs the release-triggered
setup at index 4 — the restoration happens strictly before the barrier
release, not after it as the claim states. -/
theorem restore_before_release_counterexample :
    (runScenario 1).1
      = [.wrapInstall, .loadIssued, .wrappersRestored, .completionFired, .setupRun]
  ∧ List.indexOf PEvent.wrappersRestored (runScenario 1).1
      < List.indexOf PEvent.setupRun (runScenario 1).1 :=
  ⟨rfl, by decide⟩

/-- C9 (amended): the instrumented wrappers are restored immediately after
the synchronous user preload callback returns — the restoration is the last
synchronous event of the _start preload branch and strictly precedes every
completion and every setup-triggering release, rather than following the
release; once restored, a later asynchronous load runs the un-instrumented
original, which does not increment the pending counter or re-trigger the
setup/loop transition (whereas the wrapper does increment it). -/
theorem wrapper_restore_order (n : ℕ) (b : BState) :
    (startPreloadPhase n b).1
      = .wrapInstall :: (List.replicate n .loadIssued ++ [.wrappersRestored])
  ∧ (runScenario n).1
      = (.wrapInstall :: (List.replicate n .loadIssued ++ [.wrappersRestored]))
        ++ asyncEvents n
  ∧ PEvent.wrappersRestored ∉ asyncEvents n
  ∧ originalLoad b = b
  ∧ (preloadWrapped b).pending = b.pending + 1 := by
  refine ⟨startPreloadPhase_events n b, ?_,
    wrappersRestored_not_mem_asyncEvents n, rfl, rfl⟩
  have h0 : (startPreloadPhase n initB).2.store "_preloadCount" = some (.num 0) := by
    rw [startPreloadPhase_count]; rfl
  simp [runScenario, startPreloadPhase_events, fireAll_events n _ h0]

/-! ## Frame Scheduler (p5.prototype._runFrames, p5.prototype._draw)

Timer state is explicit: intervalPeriod is the period of the live
setInterval timer armed by _runFrames (none when never armed; storing a new
period models clearInterval-then-setInterval, so at most one ticker is
live), drawQueued/drawDelay describe the pending setTimeout armed by _draw.
The user draw callback is a list of commands over the state it can reach
(this.settings.loop, this._targetFrameRate), with throwErr modelling an
exception escaping the callback: execution stops there, mutations made
before the throw persist, and the Bool result records that a throw
happened.  The transform reset on the rendering surface performed after the
user callback (curElement.context.setTransform) acts only on the external
surface collaborator and is not part of this state. -/

inductive UserCmd
  | setLoop (b : Bool)
  | setRate (r : ℚ)
  | nop
  | throwErr
deriving DecidableEq

structure SState where
  targetFrameRate : ℚ
  loop : Bool
  frameCount : ℕ
  intervalPeriod : Option ℚ
  drawQueued : Bool
  drawDelay : ℚ
  draws : ℕ
  lastFrameTime : ℤ
  frameRate : Option ℚ
deriving DecidableEq

/-- The scheduler-relevant state set up by the constructor:
settings.loop = true, _targetFrameRate = 60, frameCount = 0, _frameRate = 0,
_lastFrameTime = 0, no timer armed yet. -/
def initS : SState :=
  { targetFrameRate := 60, loop := true, frameCount := 0
  , intervalPeriod := none, drawQueued := false, drawDelay := 0
  , draws := 0, lastFrameTime := 0, frameRate := some 0 }

/-- The state in which the first _draw invocation (called directly from the
lifecycle) is about to run: one draw invocation is due. -/
def startDraw : SState := { initS with drawQueued := true }

/-- this._frameRate = 1000.0/(now - this._lastFrameTime): none models the
non-finite JavaScript result of dividing by a zero elapsed time. -/
def frameRateOf (now last : ℤ) : Option ℚ :=
  if now = last then none else some (1000 / ((now : ℚ) - (last : ℚ)))

/-- p5.prototype._runFrames:
if (this.updateInterval) { clearInterval(this.updateInterval); }
this.updateInterval = setInterval(function(){
  this._setProperty('frameCount', this.frameCount + 1); }, 1000/this._targetFrameRate);
The stored period is fixed at arm time. -/
def runFrames (s : SState) : SState :=
  { s with intervalPeriod := some (1000 / s.targetFrameRate) }

/-- One firing of the counter ticker: the setInterval callback runs
this._setProperty('frameCount', this.frameCount + 1) (the window mirroring
of _setProperty is the subject of setProperty above); setInterval keeps its
period as armed, so the firing does not touch intervalPeriod. -/
def intervalTick (s : SState) : SState :=
  { s with frameCount := s.frameCount + 1 }

/-- Execution of the user draw callback body. -/
def runUser : List UserCmd → SState → SState × Bool
  | [], s => (s, false)
  | c :: cs, s =>
    match c with
    | .setLoop b => runUser cs { s with loop := b }
    | .setRate r => runUser cs { s with targetFrameRate := r }
    | .nop => runUser cs s
    | .throwErr => (s, true)

/-- p5.prototype._draw, one invocation (the queued timeout that triggered it
is consumed): measure the frame rate, and — before calling the user draw —
if this.settings.loop is true, arm setTimeout for the next invocation with
delay 1000/this._targetFrameRate read at this moment; then call the user
draw callback if one is defined.  The Bool records whether the user callback
threw. -/
def drawTick (now : ℤ) (user : Option (List UserCmd)) (s : SState) : SState × Bool :=
  let s0 : SState :=
    { s with drawQueued := false
           , frameRate := frameRateOf now s.lastFrameTime
           , lastFrameTime := now }
  let s1 : SState :=
    if s0.loop then
      { s0 with drawQueued := true, drawDelay := 1000 / s0.targetFrameRate }
    else s0
  match user with
  | some cmds => runUser cmds { s1 with draws := s1.draws + 1 }
  | none => (s1, false)

/-- The event loop driving the draw driver alone: at each of the given
timestamps, the queued draw timeout (if any) fires; with nothing queued,
nothing ever runs again. -/
def drawLoop (user : Option (List UserCmd)) : List ℤ → SState → SState
  | [], s => s
  | t :: ts, s =>
    if s.drawQueued then drawLoop user ts (drawTick t user s).1 else s

/-- The events that can hit the scheduler state: a counter-ticker firing, a
user assignment to _targetFrameRate (writable by user callbacks per the
runtime surface), a call to _runFrames, and a draw-driver invocation. -/
inductive CoreEvent
  | tick
  | setRate (r : ℚ)
  | rearm
  | drawEv (now : ℤ) (user : Option (List UserCmd))

def applyEvent : CoreEvent → SState → SState
  | .tick, s => intervalTick s
  | .setRate r, s => { s with targetFrameRate := r }
  | .rearm, s => runFrames s
  | .drawEv now u, s => (drawTick now u s).1

def applyTrace (evs : List CoreEvent) (s : SState) : SState :=
  evs.foldl (fun st e => applyEvent e st) s

def isTick : CoreEvent → Bool
  | .tick => true
  | _ => false

theorem runUser_preserves (cs : List UserCmd) :
    ∀ s : SState,
      (runUser cs s).1.frameCount = s.frameCount
    ∧ (runUser cs s).1.draws = s.draws
    ∧ (runUser cs s).1.drawQueued = s.drawQueued
    ∧ (runUser cs s).1.drawDelay = s.drawDelay
    ∧ (runUser cs s).1.intervalPeriod = s.intervalPeriod := by
  induction cs with
  | nil => intro s; exact ⟨rfl, rfl, rfl, rfl, rfl⟩
  | cons c cs ih =>
    intro s
    cases c <;> simp [runUser, ih]

theorem drawTick_preserves (now : ℤ) (u : Option (List UserCmd)) (s : SState) :
    (drawTick now u s).1.frameCount = s.frameCount
  ∧ (drawTick now u s).1.intervalPeriod = s.intervalPeriod := by
  cases u with
  | none =>
    unfold drawTick
    by_cases h : s.loop <;> simp [h]
  | some cs =>
    unfold drawTick
    by_cases h : s.loop <;>
      simp [h, (runUser_preserves cs _).1, (runUser_preserves cs _).2.2.2.2]

theorem applyEvent_frameCount (e : CoreEvent) (s : SState) :
    (applyEvent e s).frameCount = s.frameCount + (if isTick e then 1 else 0) := by
  cases e with
  | tick => rfl
  | setRate r => rfl
  | rearm => rfl
  | drawEv now u => simp [applyEvent, isTick, (drawTick_preserves now u s).1]

theorem applyTrace_frameCount (evs : List CoreEvent) :
    ∀ s : SState,
      (applyTrace evs s).frameCount = s.frameCount + evs.countP isTick := by
  induction evs with
  | nil => intro s; simp [applyTrace]
  | cons e evs ih =>
    intro s
    have h1 : applyTrace (e :: evs) s = applyTrace evs (applyEvent e s) := rfl
    rw [h1, ih, applyEvent_frameCount, List.countP_cons]
    cases e <;> simp [isTick]
    omega

/-- C8: along any sequence of scheduler events — counter-ticker firings,
draw-driver invocations with arbitrary user draw callbacks, re-armings of
the ticker, and arbitrarily many changes of targetFrameRate — frameCount
(a natural number, hence non-negative) grows by exactly the number of
counter-ticker firings, i.e. by exactly 1 per firing and by 0 at every
other event; in particular it never decreases and never resets. -/
theorem frameCount_monotone (evs : List CoreEvent) (s : SState) :
    (applyTrace evs s).frameCount = s.frameCount + evs.countP isTick
  ∧ s.frameCount ≤ (applyTrace evs s).frameCount := by
  refine ⟨applyTrace_frameCount evs s, ?_⟩
  rw [applyTrace_frameCount evs s]
  exact Nat.le_add_right _ _

/-- C3 (counterexample to the claim as stated): arm the ticker at the
default targetFrameRate of 60, then change targetFrameRate to 30; on the
next counter-ticker firing the ticker's period is still 1000/60, not
1000/30 computed from the current targetFrameRate — the counter ticker is
not re-armed against the current target rate on its tick. -/
theorem ticker_not_rearmed_counterexample :
    (intervalTick (applyTrace [.rearm, .setRate 30] initS)).intervalPeriod
      ≠ some (1000 / (intervalTick (applyTrace [.rearm, .setRate 30] initS)).targetFrameRate)
  ∧ (intervalTick (applyTrace [.rearm, .setRate 30] initS)).intervalPeriod
      = some (1000 / 60) := by
  constructor
  · simp only [applyTrace, List.foldl, applyEvent, runFrames, intervalTick, initS]
    norm_num
  · simp only [applyTrace, List.foldl, applyEvent, runFrames, intervalTick, initS]

/-- C3 (amended): only the draw driver is re-armed against the current value
of targetFrameRate on every tick (its next delay is 1000/targetFrameRate as
read at that tick, whenever looping is on); the counter ticker's period is
fixed at 1000/targetFrameRate as read when _runFrames armed it, and a
ticker firing leaves that period unchanged — a targetFrameRate change only
reaches the ticker when _runFrames is called again. -/
theorem scheduler_rearm_corrected (s : SState) (now : ℤ) (u : Option (List UserCmd)) :
    (drawTick now u s).1.drawDelay
      = (if s.loop then 1000 / s.targetFrameRate else s.drawDelay)
  ∧ (intervalTick s).intervalPeriod = s.intervalPeriod
  ∧ (runFrames s).intervalPeriod = some (1000 / s.targetFrameRate) := by
  refine ⟨?_, rfl, rfl⟩
  cases u with
  | none =>
    unfold drawTick
    by_cases h : s.loop <;> simp [h]
  | some cs =>
    unfold drawTick
    by_cases h : s.loop <;> simp [h, (runUser_preserves cs _).2.2.2.1]

/-- C4 (counterexample to the claim as stated): start from the first draw
invocation with looping on, with a user draw callback that sets looping to
false.  Because the next invocation was scheduled before the callback ran,
exactly one further draw invocation still occurs: the total is 2 user draw
calls, not the 1 the claim (no further draw invocations) predicts. -/
theorem noLoop_one_more_draw_counterexample :
    (drawLoop (some [.setLoop false]) [1, 2, 3, 4, 5] startDraw).draws = 2
  ∧ (drawLoop (some [.setLoop false]) [1, 2, 3, 4, 5] startDraw).draws ≠ 1 := by
  exact ⟨by decide, by decide⟩

/-- C4 (amended): on every draw-driver tick the next invocation is scheduled
(exactly when looping is on) before the user draw callback runs, so a user
callback that throws still leaves the next invocation scheduled; setting
looping to false from within a draw invocation therefore results in exactly
one further draw invocation — the one already scheduled — after which the
draw driver is inert (with nothing queued, the draw event loop does
nothing), while the counter ticker keeps firing and incrementing frameCount
regardless of the looping flag. -/
theorem draw_schedule_before_user (now : ℤ) (s : SState)
    (u : Option (List UserCmd)) (ts : List ℤ) :
    ((drawTick now (some [.throwErr]) s).1.drawQueued = s.loop
      ∧ (drawTick now (some [.throwErr]) s).2 = true)
  ∧ (drawLoop (some [.setLoop false]) [1, 2, 3, 4, 5] startDraw).draws = 2
  ∧ (drawLoop (some [.setLoop false]) [1, 2, 3, 4, 5] startDraw).drawQueued = false
  ∧ (s.drawQueued = false → drawLoop u ts s = s)
  ∧ (intervalTick s).frameCount = s.frameCount + 1 := by
  refine ⟨⟨?_, ?_⟩, by decide, by decide, ?_, rfl⟩
  · unfold drawTick
    by_cases h : s.loop <;> simp [h, runUser]
  · unfold drawTick
    by_cases h : s.loop <;> simp [h, runUser]
  · intro h
    cases ts with
    | nil => rfl
    | cons t ts => simp [drawLoop, h]

/-- Witness for draw_schedule_before_user: concrete instantiation
discharging the drawQueued-empty hypothesis. -/
theorem draw_schedule_before_user_witness :
    drawLoop none [3] initS = initS :=
  (draw_schedule_before_user 0 initS none [3]).2.2.2.1 rfl

/-- C5 (failing input): two consecutive draw-driver invocations at the same
timestamp (elapsed time 0).  _draw assigns 1000.0/(now - _lastFrameTime)
to _frameRate unconditionally, so the non-finite quotient (modelled as
none) is stored in the user-visible measured-frame-rate state: no clamping
or sample-skipping policy exists. -/
theorem frameRate_nonfinite_on_zero_elapsed :
    (drawTick 5 none { initS with lastFrameTime := 5 }).1.frameRate = none
  ∧ frameRateOf 5 5 = none := by
  exact ⟨by decide, by decide⟩

/-! ## Mode Binder: instance-mode event forwarding -/

/-- The eleven input-event categories for which the instance-mode branch of
the constructor registers a window listener. -/
inductive EventKind
  | mousemove | mousedown | mouseup | mouseclick | mousewheel
  | keydown | keyup | keypress
  | touchstart | touchmove | touchend
deriving DecidableEq

/-- The identically-named handler methods reachable on the instance (own
properties attached by the user sketch closure, or inherited): none when no
such method exists.  A handler maps the raw event and the instance state to
a new instance state. -/
abbrev Handlers := EventKind → Option (ℕ → ℕ → ℕ)

/-- The host listener registered per category in the instance-mode branch:
window.addEventListener(k, function (e) { this.onK(e); }.bind(this)).
The body invokes the method unconditionally; in JavaScript, calling an
undefined member raises a TypeError. -/
def hostListener (h : Handlers) (k : EventKind) (e st : ℕ) : Except String ℕ :=
  match h k with
  | some f => .ok (f e st)
  | none => .error "TypeError"

/-- Modelled from the spec: the listener forwards the event to the
identically-named handler method on the instance only if the user has
defined one; an undefined handler is silently skipped and no error is
raised. -/
def hostListenerSpec (h : Handlers) (k : EventKind) (e st : ℕ) : Except String ℕ :=
  match h k with
  | some f => .ok (f e st)
  | none => .ok st

/-- C6 (counterexample to the claim as stated): on an instance with no
handler for the category, the registered listener does not silently skip the
event — it calls the undefined member and a TypeError results, differing
from the behaviour the claim describes. -/
theorem undefined_handler_counterexample :
    hostListener (fun _ => none) .mousemove 0 0 = .error "TypeError"
  ∧ hostListener (fun _ => none) .mousemove 0 0
      ≠ hostListenerSpec (fun _ => none) .mousemove 0 0 := by
  exact ⟨rfl, by simp [hostListener, hostListenerSpec]⟩

/-- C6 (amended): for every recognized input-event category, the registered
host-level listener forwards the event to the identically-named handler
method unconditionally: when such a handler exists the behaviour agrees
with the specified forwarding, but when the instance has no such handler
the call raises a TypeError instead of silently skipping the event — the
listener agrees with the specified silently-skipping forwarding exactly
when the handler is defined. -/
theorem event_forwarding_corrected (h : Handlers) (k : EventKind) (e st : ℕ) :
    (hostListener h k e st = hostListenerSpec h k e st ↔ (h k).isSome = true)
  ∧ ((h k).isSome = false → hostListener h k e st = .error "TypeError")
  ∧ (∀ f, h k = some f → hostListener h k e st = .ok (f e st)) := by
  refine ⟨?_, ?_, ?_⟩
  · cases hk : h k <;> simp [hostListener, hostListenerSpec, hk]
  · intro hnone
    cases hk : h k with
    | none => simp [hostListener, hk]
    | some f => rw [hk] at hnone; simp at hnone
  · intro f hk
    simp [hostListener, hk]

/-- Witness for event_forwarding_corrected: concrete instantiations
discharging the no-handler and the defined-handler hypotheses. -/
theorem event_forwarding_witness :
    hostListener (fun _ => none) EventKind.keydown 1 2 = .error "TypeError"
  ∧ hostListener (fun _ => some (fun e st => e + st)) EventKind.keydown 1 2 = .ok 3 :=
  ⟨(event_forwarding_corrected (fun _ => none) .keydown 1 2).2.1 rfl,
   (event_forwarding_corrected (fun _ => some (fun e st => e + st)) .keydown 1 2).2.2
     (fun e st => e + st) rfl⟩

/-! ## 2d primitives (src/src/shape/2d_primitives.js) -/

/-- The canvas-context drawing calls performed by the primitives, with
their numeric arguments. -/
inductive COp
  | beginPath
  | closePath
  | moveTo (x y : ℚ)
  | lineTo (x y : ℚ)
  | stroke
  | fill
  | rectPath (x y w h : ℚ)
  | fillRect (x y w h : ℚ)
  | arcPath (x y radius start stop : ℚ) (ccw : Bool)
  | bezierCurveTo (cp1x cp1y cp2x cp2y x y : ℚ)
  | scale (x y : ℚ)
deriving DecidableEq

/-- The rendering context of curElement as the primitives see it: the
current stroke and fill styles, the line width, and the log of drawing
calls issued so far. -/
structure Ctx where
  strokeStyle : String
  fillStyle : String
  lineWidth : ℚ
  ops : List COp

def Ctx.push (c : Ctx) (o : COp) : Ctx := { c with ops := c.ops ++ [o] }

/-- The p5 instance state touched by the 2d primitives: the rendering
context and the coordinate-mode settings fed to the mode-adjust
collaborator. -/
structure Shapes where
  ctx : Ctx
  ellipseMode : String
  rectMode : String

/-- Modelled from the spec: canvas.modeAdjust, the coordinate-mode math of
the external canvas collaborator (out of scope for the runtime core and
outside src).  Its output rectangle feeds only the numeric arguments of
drawing calls, never the control flow or the return value of a primitive,
so it is modelled as the identity adjustment. -/
def modeAdjust (a b c d : ℚ) (_mode : String) : ℚ × ℚ × ℚ × ℚ := (a, b, c, d)

/-- Modelled from the spec: canvas.arcModeAdjust, same external collaborator
as modeAdjust, likewise modelled as the identity adjustment. -/
def arcModeAdjust (a b c d : ℚ) (_mode : String) : ℚ × ℚ × ℚ × ℚ := (a, b, c, d)

/-- The arc-mode constants CHORD, OPEN and PIE from the external constants
module; the OPEN constant is named openMode because open is a Lean keyword.
An absent mode argument (undefined) is Option.none. -/
inductive ArcMode
  | chord
  | openMode
  | pie
deriving DecidableEq

/-- p5.prototype.arc.  Every primitive returns a pair: the JavaScript
return value (some of the instance for return this, none for a bare
return, i.e. undefined) and the instance state after the call. -/
def arc (p : Shapes) (a b c d start stop : ℚ) (mode : Option ArcMode) :
    Option Shapes × Shapes :=
  let v := arcModeAdjust a b c d p.ellipseMode
  let x := v.1
  let y := v.2.1
  let w := v.2.2.1
  let h := v.2.2.2
  let radius := if h > w then h / 2 else w / 2
  let xScale := if h > w then w / h else 1
  let yScale := if h > w then 1 else h / w
  let c1 := ((p.ctx.push (.scale xScale yScale)).push .beginPath).push
    (.arcPath x y radius start stop false)
  let c2 := c1.push .stroke
  let c3 :=
    if mode = some .chord ∨ mode = some .openMode then c2.push .closePath
    else if mode = some .pie ∨ mode = none then
      (c2.push (.lineTo x y)).push .closePath
    else c2
  let c4 := c3.push .fill
  let c5 := if mode ≠ some .openMode ∧ mode ≠ none then c4.push .stroke else c4
  let p2 := { p with ctx := c5 }
  (some p2, p2)

/-- p5.prototype.ellipse. -/
def ellipse (p : Shapes) (a b c d : ℚ) : Option Shapes × Shapes :=
  let v := modeAdjust a b c d p.ellipseMode
  let x := v.1
  let y := v.2.1
  let w := v.2.2.1
  let h := v.2.2.2
  let kappa : ℚ := 5522848 / 10000000
  let ox := w / 2 * kappa
  let oy := h / 2 * kappa
  let xe := x + w
  let ye := y + h
  let xm := x + w / 2
  let ym := y + h / 2
  let c1 := ((p.ctx.push .beginPath).push (.moveTo x ym)).push
    (.bezierCurveTo x (ym - oy) (xm - ox) y xm y)
  let c2 := (c1.push (.bezierCurveTo (xm + ox) y xe (ym - oy) xe ym)).push
    (.bezierCurveTo xe (ym + oy) (xm + ox) ye xm ye)
  let c3 := (c2.push (.bezierCurveTo (xm - ox) ye x (ym + oy) x ym)).push .closePath
  let c4 := (c3.push .fill).push .stroke
  let p2 := { p with ctx := c4 }
  (some p2, p2)

/-- p5.prototype.line: returns undefined (none) without issuing any drawing
call when the stroke style is the fully transparent value. -/
def line (p : Shapes) (x1 y1 x2 y2 : ℚ) : Option Shapes × Shapes :=
  if p.ctx.strokeStyle = "rgba(0,0,0,0)" then (none, p)
  else
    let c1 := ((p.ctx.push .beginPath).push (.moveTo x1 y1)).push (.lineTo x2 y2)
    let c2 := c1.push .stroke
    let p2 := { p with ctx := c2 }
    (some p2, p2)

/-- p5.prototype.point: reads the stroke and fill styles, returns undefined
(none) without drawing when the stroke style is the fully transparent
value; otherwise rounds the coordinates, draws with the stroke style as
temporary fill style (a small disc when lineWidth exceeds 1, a 1-pixel
fillRect otherwise), restores the fill style and returns this.  twoPi is
the TWO_PI constant from the external constants module. -/
def point (twoPi : ℚ) (p : Shapes) (x0 y0 : ℚ) : Option Shapes × Shapes :=
  let s := p.ctx.strokeStyle
  let f := p.ctx.fillStyle
  if s = "rgba(0,0,0,0)" then (none, p)
  else
    let x : ℚ := ((round x0 : ℤ) : ℚ)
    let y : ℚ := ((round y0 : ℤ) : ℚ)
    let c1 : Ctx := { p.ctx with fillStyle := s }
    let c2 :=
      if c1.lineWidth > 1 then
        ((c1.push .beginPath).push
          (.arcPath x y (c1.lineWidth / 2) 0 twoPi false)).push .fill
      else
        c1.push (.fillRect x y 1 1)
    let c3 : Ctx := { c2 with fillStyle := f }
    let p2 := { p with ctx := c3 }
    (some p2, p2)

/-- p5.prototype.quad. -/
def quad (p : Shapes) (x1 y1 x2 y2 x3 y3 x4 y4 : ℚ) : Option Shapes × Shapes :=
  let c1 := ((p.ctx.push .beginPath).push (.moveTo x1 y1)).push (.lineTo x2 y2)
  let c2 := ((c1.push (.lineTo x3 y3)).push (.lineTo x4 y4)).push .closePath
  let c3 := (c2.push .fill).push .stroke
  let p2 := { p with ctx := c3 }
  (some p2, p2)

/-- p5.prototype.rect. -/
def rect (p : Shapes) (a b c d : ℚ) : Option Shapes × Shapes :=
  let v := modeAdjust a b c d p.rectMode
  let c1 := (p.ctx.push .beginPath).push (.rectPath v.1 v.2.1 v.2.2.1 v.2.2.2)
  let c2 := (c1.push .fill).push .stroke
  let p2 := { p with ctx := c2 }
  (some p2, p2)

/-- p5.prototype.triangle. -/
def triangle (p : Shapes) (x1 y1 x2 y2 x3 y3 : ℚ) : Option Shapes × Shapes :=
  let c1 := ((p.ctx.push .beginPath).push (.moveTo x1 y1)).push (.lineTo x2 y2)
  let c2 := (c1.push (.lineTo x3 y3)).push .closePath
  let c3 := (c2.push .fill).push .stroke
  let p2 := { p with ctx := c3 }
  (some p2, p2)

/-- C10: every 2d primitive returns the p5 instance (its post-call state)
enabling chaining, except that line and point return undefined — leaving
the instance state, in particular the log of drawing calls, completely
untouched — exactly when the stroke style equals the fully transparent
value rgba(0,0,0,0); on all other inputs line and point also return the
instance. -/
theorem primitives_return (p : Shapes) (twoPi a b c d e f g h : ℚ)
    (mode : Option ArcMode) :
    (arc p a b c d e f mode).1 = some (arc p a b c d e f mode).2
  ∧ (ellipse p a b c d).1 = some (ellipse p a b c d).2
  ∧ (quad p a b c d e f g h).1 = some (quad p a b c d e f g h).2
  ∧ (rect p a b c d).1 = some (rect p a b c d).2
  ∧ (triangle p a b c d e f).1 = some (triangle p a b c d e f).2
  ∧ (line p a b c d).1
      = (if p.ctx.strokeStyle = "rgba(0,0,0,0)" then none else some (line p a b c d).2)
  ∧ (line p a b c d).2
      = (if p.ctx.strokeStyle = "rgba(0,0,0,0)" then p else (line p a b c d).2)
  ∧ (point twoPi p a b).1
      = (if p.ctx.strokeStyle = "rgba(0,0,0,0)" then none
         else some (point twoPi p a b).2)
  ∧ (point twoPi p a b).2
      = (if p.ctx.strokeStyle = "rgba(0,0,0,0)" then p else (point twoPi p a b).2) := by
  refine ⟨rfl, rfl, rfl, rfl, rfl, ?_, ?_, ?_, ?_⟩
  all_goals
    by_cases hs : p.ctx.strokeStyle = "rgba(0,0,0,0)" <;> simp [line, point, hs]

end P5
